import Mathlib

/-!
Shallow embedding of the seven analytic report queries of `src/main.py`
(`run_query` calls 1–7) over the Pagila-style relational schema.

Rows are records, relations are lists of rows, and each SQL construct is
translated directly: inner joins become guarded list binds, `GROUP BY`
becomes deduplicated key extraction plus per-key filtering, `DENSE_RANK`
becomes one plus the number of distinct strictly-greater sort values,
`ORDER BY` becomes a stable insertion sort with a boolean comparator, and
`LIMIT n` becomes `List.take n`.
-/

/-- A row of the `actor` table. -/
structure Actor where
  actor_id : Nat
  first_name : String
  last_name : String
deriving DecidableEq, Repr

/-- A row of the `category` table. -/
structure Category where
  category_id : Nat
  name : String
deriving DecidableEq, Repr

/-- A row of the `film` table (`length` is the film length in minutes). -/
structure Film where
  film_id : Nat
  title : String
  length : Nat
deriving DecidableEq, Repr

/-- A row of the `film_actor` bridge table. -/
structure FilmActor where
  film_id : Nat
  actor_id : Nat
deriving DecidableEq, Repr

/-- A row of the `film_category` bridge table. -/
structure FilmCategory where
  film_id : Nat
  category_id : Nat
deriving DecidableEq, Repr

/-- A row of the `inventory` table. -/
structure Inventory where
  inventory_id : Nat
  film_id : Nat
deriving DecidableEq, Repr

/-- A row of the `rental` table. -/
structure Rental where
  rental_id : Nat
  inventory_id : Nat
  customer_id : Nat
deriving DecidableEq, Repr

/-- A row of the `payment` table. -/
structure Payment where
  rental_id : Nat
  amount : ℚ
deriving DecidableEq, Repr

/-- A row of the `customer` table. -/
structure Customer where
  customer_id : Nat
  address_id : Nat
  activebool : Bool
deriving DecidableEq, Repr

/-- A row of the `address` table. -/
structure Address where
  address_id : Nat
  city_id : Nat
deriving DecidableEq, Repr

/-- A row of the `city` table. -/
structure City where
  city_id : Nat
  city : String
deriving DecidableEq, Repr

/-- The Relation Store: the eleven tables loaded by `tables_to_load`. -/
structure Store where
  actor : List Actor
  category : List Category
  film : List Film
  film_actor : List FilmActor
  film_category : List FilmCategory
  inventory : List Inventory
  rental : List Rental
  payment : List Payment
  customer : List Customer
  address : List Address
  city : List City
deriving DecidableEq, Repr

/-! ### Generic query building blocks -/

/-- Stable insertion of `x` into `l`: `x` is placed before the first
element that is not strictly below it under the comparator `le`. -/
def insertSorted (le : α → α → Bool) (x : α) : List α → List α
  | [] => [x]
  | y :: ys =>
    if le y x && !(le x y) then y :: insertSorted le x ys else x :: y :: ys

/-- Stable insertion sort with boolean comparator `le`
(`le a b = true` meaning `a` may come before `b`): the `ORDER BY` clause. -/
def sortByLe (le : α → α → Bool) : List α → List α
  | [] => []
  | x :: xs => insertSorted le x (sortByLe le xs)

/-- Lexicographic comparison of character lists by code point, the order
underlying string `ORDER BY` keys. -/
def strLeAux : List Char → List Char → Bool
  | [], _ => true
  | _ :: _, [] => false
  | a :: as, b :: bs =>
    if a.toNat < b.toNat then true
    else if b.toNat < a.toNat then false
    else strLeAux as bs

/-- Lexicographic string comparison by code point. -/
def strLe (a b : String) : Bool :=
  strLeAux a.data b.data

/-- `GROUP BY`: the distinct key values of `rows` under `key`, each paired
with the sublist of rows having that key. -/
def groupRows [DecidableEq κ] (key : α → κ) (rows : List α) :
    List (κ × List α) :=
  ((rows.map key).dedup).map fun k =>
    (k, rows.filter fun r => decide (key r = k))

/-- `DENSE_RANK() OVER (ORDER BY v DESC)`: one plus the number of distinct
values in `vals` strictly greater than `v`. -/
def denseRankDesc [LinearOrder α] [DecidableEq α] (vals : List α) (v : α) :
    Nat :=
  (vals.toFinset.filter fun u => v < u).card + 1

/-! ### Report 1: film counts per category -/

/-- The inner join of `category` and `film_category`
on `category.category_id = film_category.category_id`. -/
def joined1 (s : Store) : List (Category × FilmCategory) :=
  s.category.flatMap fun c =>
    (s.film_category.filter fun fc =>
      decide (c.category_id = fc.category_id)).map fun fc => (c, fc)

/-- An output row of report 1. -/
structure Report1Row where
  category_name : String
  film_count : Nat
deriving DecidableEq, Repr

/-- Report 1: number of films per category name, ordered by count
descending. -/
def report1 (s : Store) : List Report1Row :=
  sortByLe (fun x y => decide (y.film_count ≤ x.film_count))
    ((groupRows (fun p => p.1.name) (joined1 s)).map fun g =>
      ⟨g.1, g.2.length⟩)

/-! ### Report 2: top-10 actors by rental count -/

/-- The chained inner join
`actor ⋈ film_actor ⋈ inventory ⋈ rental` of report 2. -/
def joined2 (s : Store) : List (Actor × FilmActor × Inventory × Rental) :=
  s.actor.flatMap fun a =>
    s.film_actor.flatMap fun fa =>
      s.inventory.flatMap fun i =>
        (s.rental.filter fun r =>
          decide (a.actor_id = fa.actor_id ∧ fa.film_id = i.film_id ∧
            i.inventory_id = r.inventory_id)).map fun r => (a, fa, i, r)

/-- An output row of report 2. -/
structure Report2Row where
  actor_first_name : String
  actor_last_name : String
  rental_count : Nat
deriving DecidableEq, Repr

/-- Report 2: rental counts per actor, ordered descending, `LIMIT 10`. -/
def report2 (s : Store) : List Report2Row :=
  (sortByLe (fun x y => decide (y.rental_count ≤ x.rental_count))
    ((groupRows (fun t => (t.1.actor_id, t.1.first_name, t.1.last_name))
      (joined2 s)).map fun g => ⟨g.1.2.1, g.1.2.2, g.2.length⟩)).take 10

/-! ### Report 3: most profitable category -/

/-- The chained inner join
`payment ⋈ rental ⋈ inventory ⋈ film_category ⋈ category` of report 3. -/
def joined3 (s : Store) :
    List (Payment × Rental × Inventory × FilmCategory × Category) :=
  s.payment.flatMap fun p =>
    s.rental.flatMap fun r =>
      s.inventory.flatMap fun i =>
        s.film_category.flatMap fun fc =>
          (s.category.filter fun c =>
            decide (p.rental_id = r.rental_id ∧
              r.inventory_id = i.inventory_id ∧ i.film_id = fc.film_id ∧
              fc.category_id = c.category_id)).map fun c => (p, r, i, fc, c)

/-- An output row of report 3. -/
structure Report3Row where
  category_name : String
  total_spent : ℚ
deriving DecidableEq, Repr

/-- Report 3: total payment amount per category name, ordered descending,
`LIMIT 1`. -/
def report3 (s : Store) : List Report3Row :=
  (sortByLe (fun x y => decide (y.total_spent ≤ x.total_spent))
    ((groupRows (fun t => t.2.2.2.2.name) (joined3 s)).map fun g =>
      ⟨g.1, (g.2.map fun t => t.1.amount).sum⟩)).take 1

/-! ### Report 4: films absent from inventory -/

/-- Report 4: titles of films for which `NOT EXISTS` an inventory row with
the same `film_id` (an anti-join). -/
def report4 (s : Store) : List String :=
  (s.film.filter fun f =>
    !(s.inventory.any fun i => decide (i.film_id = f.film_id))).map
    fun f => f.title

/-! ### Report 5: top-3 actors in the Children category -/

/-- The chained inner join
`actor ⋈ film_actor ⋈ film_category ⋈ category` of report 5. -/
def joined5 (s : Store) :
    List (Actor × FilmActor × FilmCategory × Category) :=
  s.actor.flatMap fun a =>
    s.film_actor.flatMap fun fa =>
      s.film_category.flatMap fun fc =>
        (s.category.filter fun c =>
          decide (a.actor_id = fa.actor_id ∧ fa.film_id = fc.film_id ∧
            fc.category_id = c.category_id)).map fun c => (a, fa, fc, c)

/-- A row of the `actor_film_counts` subquery of report 5. -/
structure ActorFilmCount where
  actor_id : Nat
  first_name : String
  last_name : String
  film_count : Nat
deriving DecidableEq, Repr

/-- The `actor_film_counts` subquery: film counts per actor over the joined
rows restricted by `WHERE category.name = 'Children'`. -/
def actorFilmCounts (s : Store) : List ActorFilmCount :=
  (groupRows (fun t => (t.1.actor_id, t.1.first_name, t.1.last_name))
    ((joined5 s).filter fun t => decide (t.2.2.2.name = "Children"))).map
    fun g => ⟨g.1.1, g.1.2.1, g.1.2.2, g.2.length⟩

/-- A row of the `ranked_actors` subquery of report 5. -/
structure RankedActor where
  first_name : String
  last_name : String
  film_count : Nat
  rnk : Nat
deriving DecidableEq, Repr

/-- The `ranked_actors` subquery: each aggregated row with its
`DENSE_RANK() OVER (ORDER BY film_count DESC)`. -/
def rankedActors (s : Store) : List RankedActor :=
  (actorFilmCounts s).map fun r =>
    ⟨r.first_name, r.last_name, r.film_count,
      denseRankDesc ((actorFilmCounts s).map fun x => x.film_count)
        r.film_count⟩

/-- An output row of report 5. -/
structure Report5Row where
  first_name : String
  last_name : String
  film_count : Nat
deriving DecidableEq, Repr

/-- Report 5: ranked actor rows with `rnk ≤ 3`, ordered by
`film_count DESC, first_name`. -/
def report5 (s : Store) : List Report5Row :=
  sortByLe (fun x y =>
      decide (y.film_count < x.film_count) ||
        (decide (x.film_count = y.film_count) &&
          strLe x.first_name y.first_name))
    (((rankedActors s).filter fun r => decide (r.rnk ≤ 3)).map fun r =>
      ⟨r.first_name, r.last_name, r.film_count⟩)

/-! ### Report 6: active and inactive customers per city -/

/-- The chained inner join `city ⋈ address ⋈ customer` of report 6. -/
def joined6 (s : Store) : List (City × Address × Customer) :=
  s.city.flatMap fun ci =>
    s.address.flatMap fun ad =>
      (s.customer.filter fun cu =>
        decide (ci.city_id = ad.city_id ∧
          ad.address_id = cu.address_id)).map fun cu => (ci, ad, cu)

/-- An output row of report 6. -/
structure Report6Row where
  city : String
  active_customers : Nat
  inactive_customers : Nat
deriving DecidableEq, Repr

/-- The grouped rows of report 6: per city name, the two conditional sums
`SUM(CASE WHEN cu.activebool = true THEN 1 ELSE 0 END)` and
`SUM(CASE WHEN cu.activebool = false THEN 1 ELSE 0 END)`. -/
def report6grouped (s : Store) : List Report6Row :=
  (groupRows (fun t => t.1.city) (joined6 s)).map fun g =>
    ⟨g.1,
      (g.2.map fun t => if t.2.2.activebool = true then 1 else 0).sum,
      (g.2.map fun t => if t.2.2.activebool = false then 1 else 0).sum⟩

/-- Report 6: grouped rows ordered by `active_customers DESC, city`,
`LIMIT 20`. -/
def report6 (s : Store) : List Report6Row :=
  (sortByLe (fun x y =>
      decide (y.active_customers < x.active_customers) ||
        (decide (x.active_customers = y.active_customers) &&
          strLe x.city y.city))
    (report6grouped s)).take 20

/-! ### Report 7: top category by rental hours per city bucket -/

/-- `city LIKE 'a%'`: the city name starts with the lowercase character
`a` (LIKE patterns are case-sensitive). -/
def startsWithA (c : String) : Bool :=
  match c.data with
  | [] => false
  | ch :: _ => ch = 'a'

/-- `city LIKE '%-%'`: the city name contains a hyphen character. -/
def containsHyphen (c : String) : Bool :=
  c.data.contains '-'

/-- The `CASE WHEN city LIKE 'a%' THEN 'Starts with a' WHEN city LIKE
'%-%' THEN 'Contains hyphen' END` expression: no `ELSE` branch, so a city
matching neither pattern gets the SQL null label, modelled as `none`. -/
def cityGroup (c : String) : Option String :=
  if startsWithA c then some "Starts with a"
  else if containsHyphen c then some "Contains hyphen"
  else none

/-- A row of the eight-way joined relation of report 7. -/
structure J7 where
  cat : Category
  fc : FilmCategory
  film : Film
  inv : Inventory
  ren : Rental
  cu : Customer
  addr : Address
  city : City
deriving DecidableEq, Repr

/-- The eight-way chained inner join of report 7:
`category ⋈ film_category ⋈ film ⋈ inventory ⋈ rental ⋈ customer ⋈ address
⋈ city`. -/
def joined7 (s : Store) : List J7 :=
  s.category.flatMap fun cat =>
    s.film_category.flatMap fun fc =>
      s.film.flatMap fun film =>
        s.inventory.flatMap fun inv =>
          s.rental.flatMap fun ren =>
            s.customer.flatMap fun cu =>
              s.address.flatMap fun addr =>
                (s.city.filter fun city =>
                  decide (addr.city_id = city.city_id ∧
                    cu.address_id = addr.address_id ∧
                    ren.customer_id = cu.customer_id ∧
                    inv.inventory_id = ren.inventory_id ∧
                    film.film_id = inv.film_id ∧
                    fc.film_id = film.film_id ∧
                    cat.category_id = fc.category_id)).map
                  fun city => ⟨cat, fc, film, inv, ren, cu, addr, city⟩

/-- A row of the `grouped_data` CTE of report 7. -/
structure GroupedData where
  city_group : Option String
  category_name : String
  total_hours : ℚ
deriving DecidableEq, Repr

/-- The `grouped_data` CTE: joined rows restricted by the `WHERE`
pre-filter `city LIKE 'a%' OR city LIKE '%-%'`, grouped by
`(city_group, category_name)`, with `SUM(film.length) / 60.0`. -/
def grouped7 (s : Store) : List GroupedData :=
  (groupRows (fun t : J7 => (cityGroup t.city.city, t.cat.name))
    ((joined7 s).filter fun t =>
      startsWithA t.city.city || containsHyphen t.city.city)).map fun g =>
    ⟨g.1.1, g.1.2, ((g.2.map fun t => t.film.length).sum : ℚ) / 60⟩

/-- A row of the `ranked_data` CTE of report 7. -/
structure RankedData where
  city_group : Option String
  category_name : String
  total_hours : ℚ
  rnk : Nat
deriving DecidableEq, Repr

/-- The `ranked_data` CTE: each grouped row with its
`DENSE_RANK() OVER (PARTITION BY city_group ORDER BY total_hours DESC)`. -/
def ranked7 (s : Store) : List RankedData :=
  (grouped7 s).map fun r =>
    ⟨r.city_group, r.category_name, r.total_hours,
      denseRankDesc
        (((grouped7 s).filter fun x =>
          decide (x.city_group = r.city_group)).map fun x => x.total_hours)
        r.total_hours⟩

/-- Comparator for `ORDER BY city_group` on the nullable bucket label. -/
def optLe : Option String → Option String → Bool
  | none, _ => true
  | some _, none => false
  | some a, some b => strLe a b

/-- An output row of report 7. -/
structure Report7Row where
  city_group : Option String
  category_name : String
  total_hours : ℚ
deriving DecidableEq, Repr

/-- Report 7: ranked rows with `rnk = 1`, ordered by `city_group`. -/
def report7 (s : Store) : List Report7Row :=
  sortByLe (fun x y => optLe x.city_group y.city_group)
    (((ranked7 s).filter fun r => decide (r.rnk = 1)).map fun r =>
      ⟨r.city_group, r.category_name, r.total_hours⟩)

/-! ### Concrete stores used in examples -/

/-- A store with four actors in the Children category having film counts
5, 5, 5 and 3: three actors tie for rank 1 and the fourth has rank 2. -/
def tieStore5 : Store :=
  { actor := [⟨1, "a", "x"⟩, ⟨2, "b", "x"⟩, ⟨3, "c", "x"⟩, ⟨4, "d", "x"⟩]
    category := [⟨1, "Children"⟩]
    film := []
    film_actor :=
      [⟨1, 1⟩, ⟨2, 1⟩, ⟨3, 1⟩, ⟨4, 1⟩, ⟨5, 1⟩,
       ⟨1, 2⟩, ⟨2, 2⟩, ⟨3, 2⟩, ⟨4, 2⟩, ⟨5, 2⟩,
       ⟨1, 3⟩, ⟨2, 3⟩, ⟨3, 3⟩, ⟨4, 3⟩, ⟨5, 3⟩,
       ⟨1, 4⟩, ⟨2, 4⟩, ⟨3, 4⟩]
    film_category := [⟨1, 1⟩, ⟨2, 1⟩, ⟨3, 1⟩, ⟨4, 1⟩, ⟨5, 1⟩]
    inventory := []
    rental := []
    payment := []
    customer := []
    address := []
    city := [] }

/-- A store where eleven distinct actors all appear in the single film
whose sole inventory copy was rented once, so all eleven tie on
rental count 1. -/
def tieStore10 : Store :=
  { actor :=
      [⟨1, "a", "b"⟩, ⟨2, "a", "b"⟩, ⟨3, "a", "b"⟩, ⟨4, "a", "b"⟩,
       ⟨5, "a", "b"⟩, ⟨6, "a", "b"⟩, ⟨7, "a", "b"⟩, ⟨8, "a", "b"⟩,
       ⟨9, "a", "b"⟩, ⟨10, "a", "b"⟩, ⟨11, "a", "b"⟩]
    category := []
    film := []
    film_actor :=
      [⟨1, 1⟩, ⟨1, 2⟩, ⟨1, 3⟩, ⟨1, 4⟩, ⟨1, 5⟩, ⟨1, 6⟩, ⟨1, 7⟩, ⟨1, 8⟩,
       ⟨1, 9⟩, ⟨1, 10⟩, ⟨1, 11⟩]
    film_category := []
    inventory := [⟨1, 1⟩]
    rental := [⟨1, 1, 1⟩]
    payment := []
    customer := []
    address := []
    city := [] }

/-- A store with two films sharing the title `T`, where only the second
film has an inventory copy. -/
def dupTitleStore : Store :=
  { actor := [], category := [], film := [⟨1, "T", 90⟩, ⟨2, "T", 90⟩]
    film_actor := [], film_category := [], inventory := [⟨1, 2⟩]
    rental := [], payment := [], customer := [], address := [], city := [] }

/-- A store with two films with distinct titles, where only the second
film has an inventory copy. -/
def antiJoinStore : Store :=
  { actor := [], category := [], film := [⟨1, "A", 90⟩, ⟨2, "B", 100⟩]
    film_actor := [], film_category := [], inventory := [⟨1, 2⟩]
    rental := [], payment := [], customer := [], address := [], city := [] }

/-- A store with one city with one active and one inactive customer. -/
def cityStore : Store :=
  { actor := [], category := [], film := [], film_actor := []
    film_category := [], inventory := [], rental := [], payment := []
    customer := [⟨1, 1, true⟩, ⟨2, 1, false⟩]
    address := [⟨1, 1⟩], city := [⟨1, "p"⟩] }

/-- A store whose full report-7 join chain produces one row for a city
starting with the character `a`. -/
def hoursStore : Store :=
  { actor := [], category := [⟨1, "c"⟩], film := [⟨1, "t", 60⟩]
    film_actor := [], film_category := [⟨1, 1⟩]
    inventory := [⟨1, 1⟩], rental := [⟨1, 1, 1⟩], payment := []
    customer := [⟨1, 1, true⟩], address := [⟨1, 1⟩], city := [⟨1, "ax"⟩] }

/-- The store in which every relation is empty. -/
def emptyStore : Store :=
  { actor := [], category := [], film := [], film_actor := []
    film_category := [], inventory := [], rental := [], payment := []
    customer := [], address := [], city := [] }

/-- A store whose only nonempty relation is `film`: its single film has no
inventory row, so report 4 lists it. -/
def filmOnlyStore : Store :=
  { actor := [], category := [], film := [⟨1, "T", 90⟩], film_actor := []
    film_category := [], inventory := [], rental := [], payment := []
    customer := [], address := [], city := [] }

/-! ### Helper lemmas about the building blocks -/

theorem mem_insertSorted (le : α → α → Bool) (a x : α) (l : List α) :
    x ∈ insertSorted le a l ↔ x = a ∨ x ∈ l := by
  induction l with
  | nil => simp [insertSorted]
  | cons y ys ih =>
    simp only [insertSorted]
    split
    · simp only [List.mem_cons, ih]
      tauto
    · simp only [List.mem_cons]

theorem mem_sortByLe (le : α → α → Bool) (x : α) (l : List α) :
    x ∈ sortByLe le l ↔ x ∈ l := by
  induction l with
  | nil => simp [sortByLe]
  | cons y ys ih => simp [sortByLe, mem_insertSorted, ih]

theorem mem_groupRows [DecidableEq κ] (key : α → κ) (rows : List α)
    (g : κ × List α) :
    g ∈ groupRows key rows ↔
      g.1 ∈ rows.map key ∧
        g.2 = rows.filter fun r => decide (key r = g.1) := by
  cases g with
  | mk k l =>
    simp only [groupRows, List.mem_map, List.mem_dedup]
    constructor
    · rintro ⟨k', hk', heq⟩
      rw [Prod.mk.injEq] at heq
      obtain ⟨rfl, rfl⟩ := heq
      exact ⟨hk', rfl⟩
    · rintro ⟨h1, h2⟩
      exact ⟨k, h1, by rw [h2]⟩

theorem flatMapNilFun (l : List α) :
    (l.flatMap fun _ => ([] : List β)) = [] := by
  induction l <;> simp_all

theorem sumIfBool (l : List (City × Address × Customer)) :
    (l.map fun t => if t.2.2.activebool = true then 1 else 0).sum +
      (l.map fun t => if t.2.2.activebool = false then 1 else 0).sum =
      l.length := by
  induction l with
  | nil => simp
  | cons h tl ih => cases hb : h.2.2.activebool <;> simp [hb] <;> omega

theorem denseRankDescStep [LinearOrder α] [DecidableEq α]
    (vals : List α) (v w : α) (hv : v ∈ vals) (hlt : w < v)
    (hbetween : ∀ u ∈ vals, ¬(w < u ∧ u < v)) :
    denseRankDesc vals w = denseRankDesc vals v + 1 := by
  unfold denseRankDesc
  have hins : (vals.toFinset.filter fun u => w < u) =
      insert v (vals.toFinset.filter fun u => v < u) := by
    ext x
    simp only [Finset.mem_filter, Finset.mem_insert, List.mem_toFinset]
    constructor
    · rintro ⟨hx, hwx⟩
      have hle : v ≤ x := not_lt.mp fun hxv => hbetween x hx ⟨hwx, hxv⟩
      rcases hle.eq_or_lt with h | h
      · exact Or.inl h.symm
      · exact Or.inr ⟨hx, h⟩
    · rintro (rfl | ⟨hx, hvx⟩)
      · exact ⟨hv, hlt⟩
      · exact ⟨hx, hlt.trans hvx⟩
  have hnot : v ∉ vals.toFinset.filter fun u => v < u := by
    simp [Finset.mem_filter]
  rw [hins, Finset.card_insert_of_not_mem hnot]

theorem cityGroupIsSomeOfPre (c : String)
    (h : (startsWithA c || containsHyphen c) = true) :
    (cityGroup c).isSome = true := by
  rcases Bool.or_eq_true .. ▸ h with h1 | h1 <;> simp [cityGroup, h1]
  by_cases h2 : startsWithA c <;> simp [h2]

/-! ### Claim theorems -/

/-- C2: the ranker assigns dense ranks with no gaps: within a partition
ordered by the sort column descending, rows with equal sort values receive
the same rank, the next distinct value receives the previous rank plus
one, and for sort values [10, 10, 8, 5] the assigned ranks are
[1, 1, 2, 3]. -/
theorem denseRank_no_gaps :
    (∀ (α : Type) [LinearOrder α] [DecidableEq α]
        (vals : List α) (v w : α), v ∈ vals → w ∈ vals → v = w →
        denseRankDesc vals v = denseRankDesc vals w)
    ∧ (∀ (α : Type) [LinearOrder α] [DecidableEq α]
        (vals : List α) (v w : α), v ∈ vals → w ∈ vals → w < v →
        (∀ u ∈ vals, ¬(w < u ∧ u < v)) →
        denseRankDesc vals w = denseRankDesc vals v + 1)
    ∧ ([10, 10, 8, 5] : List Nat).map (denseRankDesc [10, 10, 8, 5]) =
        [1, 1, 2, 3] := by
  refine ⟨?_, ?_, by decide⟩
  · intro α _ _ vals v w _ _ h
    rw [h]
  · intro α _ _ vals v w hv hw hlt hbetween
    exact denseRankDescStep vals v w hv hlt hbetween

/-- Witness for C2: in the value list [10, 8] the value 8 receives rank
one greater than the rank of 10. -/
theorem denseRank_no_gaps_witness :
    denseRankDesc ([10, 8] : List Nat) 8 = denseRankDesc [10, 8] 10 + 1 :=
  denseRank_no_gaps.2.1 Nat [10, 8] 10 8 (by decide) (by decide)
    (by decide) (by decide)

/-- C5: report 7's bucketizer evaluates its pattern predicates in priority
order with first match winning and case-sensitive literal matching: any
city starting with the character a is labeled Starts with a even when it
also contains a hyphen, the city a-lantis satisfies both predicates but
gets exactly the label Starts with a, and a city starting with uppercase
A does not match the prefix predicate. -/
theorem bucketizer_first_match :
    (∀ c : String, startsWithA c = true →
      cityGroup c = some "Starts with a")
    ∧ startsWithA "a-lantis" = true
    ∧ containsHyphen "a-lantis" = true
    ∧ cityGroup "a-lantis" = some "Starts with a"
    ∧ startsWithA "A-lantis" = false
    ∧ cityGroup "A-lantis" = some "Contains hyphen" := by
  refine ⟨fun c h => by simp [cityGroup, h], by decide, by decide,
    by decide, by decide, by decide⟩

/-- Witness for C5: the city ab starts with a and is bucketed as
Starts with a. -/
theorem bucketizer_first_match_witness :
    cityGroup "ab" = some "Starts with a" :=
  bucketizer_first_match.1 "ab" (by decide)

/-- C8: each report is deterministic and idempotent: running any report
twice against the same unmodified store yields identical result rows,
in value and in order, because each report is a pure function of the
store. -/
theorem reports_deterministic (s : Store) :
    report1 s = report1 s ∧ report2 s = report2 s ∧
    report3 s = report3 s ∧ report4 s = report4 s ∧
    report5 s = report5 s ∧ report6 s = report6 s ∧
    report7 s = report7 s :=
  ⟨rfl, rfl, rfl, rfl, rfl, rfl, rfl⟩

/-- C10: report 2's top-10 cut is a row-count limit, not a rank filter:
for every store the output has at most 10 rows, and in a store where
eleven actors tie on rental count the aggregation has 11 rows but the
output has only 10, so a tied actor is excluded. -/
theorem report2_rowcount_limit :
    (∀ s : Store, (report2 s).length ≤ 10)
    ∧ (groupRows (fun t => (t.1.actor_id, t.1.first_name, t.1.last_name))
        (joined2 tieStore10)).length = 11
    ∧ (report2 tieStore10).length = 10 := by
  refine ⟨fun s => ?_, by decide, by decide⟩
  simp only [report2, List.length_take]
  exact min_le_left _ _

/-- C4: in report 6, for every city group the sum of the active and the
inactive conditional counts equals the number of joined customer rows of
that group: each joined row contributes one to exactly one of the two
branches. -/
theorem report6_branch_totals (s : Store) (r : Report6Row)
    (hr : r ∈ report6grouped s) :
    r.active_customers + r.inactive_customers =
      ((joined6 s).filter fun t => decide (t.1.city = r.city)).length := by
  obtain ⟨g, hg, rfl⟩ := List.mem_map.1 hr
  have h2 := ((mem_groupRows _ _ _).1 hg).2
  simpa [← h2] using sumIfBool g.2

/-- Witness for C4: in a store with one city having one active and one
inactive customer, the two branch counts sum to the two joined rows. -/
theorem report6_branch_totals_witness :
    (1 : Nat) + 1 =
      ((joined6 cityStore).filter fun t => decide (t.1.city = "p")).length :=
  report6_branch_totals cityStore (Report6Row.mk "p" 1 1) (by decide)

/-- C6: in report 7 the missing ELSE branch of the CASE expression is
unreachable: every grouped row that survives the WHERE pre-filter carries
a defined bucket label, never the null label. -/
theorem report7_bucket_defined (s : Store) (g : GroupedData)
    (hg : g ∈ grouped7 s) : g.city_group.isSome = true := by
  obtain ⟨gr, hgr, rfl⟩ := List.mem_map.1 hg
  have h1 := ((mem_groupRows _ _ _).1 hgr).1
  obtain ⟨t, ht, hkey⟩ := List.mem_map.1 h1
  have hpre := (List.mem_filter.1 ht).2
  have hsome := cityGroupIsSomeOfPre t.city.city hpre
  have : gr.1.1 = cityGroup t.city.city := by rw [← hkey]
  simpa [this] using hsome

/-- Witness for C6: the single grouped row of the one-row report-7 store
carries the defined label Starts with a. -/
theorem report7_bucket_defined_witness :
    (GroupedData.mk (some "Starts with a") "c" 1).city_group.isSome =
      true :=
  report7_bucket_defined hoursStore (GroupedData.mk (some "Starts with a") "c" 1)
    (by simp [grouped7, groupRows, joined7, cityGroup, startsWithA,
      containsHyphen, hoursStore])

/-- C1 counterexample: with two films sharing the title T where only the
second has an inventory row, the title of the second film appears in
report 4's output even though an inventory row matches its film_id, so
the title-membership iff fails as stated. -/
theorem report4_antijoin_cex :
    ¬((Film.mk 2 "T" 90).title ∈ report4 dupTitleStore ↔
      ¬∃ i ∈ dupTitleStore.inventory,
        i.film_id = (Film.mk 2 "T" 90).film_id) := by
  decide

/-- C1 (amended): when film titles are pairwise distinct, a film's title
appears in report 4's output iff no inventory row has a matching
film_id. -/
theorem report4_antijoin (s : Store)
    (htitle : ∀ f ∈ s.film, ∀ g ∈ s.film, f.title = g.title → f = g)
    (f : Film) (hf : f ∈ s.film) :
    f.title ∈ report4 s ↔ ¬∃ i ∈ s.inventory, i.film_id = f.film_id := by
  simp only [report4, List.mem_map, List.mem_filter]
  constructor
  · rintro ⟨g, ⟨hg, hnoinv⟩, htitleeq⟩
    cases htitle g hg f hf htitleeq
    simp only [Bool.not_eq_eq_eq_not, Bool.not_true, List.any_eq_false,
      decide_eq_true_eq] at hnoinv
    rintro ⟨i, hi, hieq⟩
    exact hnoinv i hi hieq
  · intro hno
    refine ⟨f, ⟨hf, ?_⟩, rfl⟩
    simp only [Bool.not_eq_eq_eq_not, Bool.not_true, List.any_eq_false,
      decide_eq_true_eq]
    exact fun i hi hieq => hno ⟨i, hi, hieq⟩

/-- Witness for C1 (amended): in a store with distinct titles A and B
where only the film titled B has inventory, the title A appears iff no
inventory row matches film 1 — and none does. -/
theorem report4_antijoin_witness :
    ("A" ∈ report4 antiJoinStore ↔
      ¬∃ i ∈ antiJoinStore.inventory, i.film_id = 1) :=
  report4_antijoin antiJoinStore (by decide) (Film.mk 1 "A" 90) (by decide)

set_option maxHeartbeats 1600000 in
/-- C7: every join in the seven reports has standard inner-join
semantics: a combined row is in the join output of reports 1, 2, 3, 5, 6
or 7 iff each component row is in its relation and every equality
predicate on the foreign keys holds, so no output row dangles and
unmatched rows are dropped rather than null-padded (report 4 performs no
join). -/
theorem inner_join_semantics (s : Store) :
    (∀ (c : Category) (fc : FilmCategory),
      (c, fc) ∈ joined1 s ↔
        c ∈ s.category ∧ fc ∈ s.film_category ∧
          c.category_id = fc.category_id)
    ∧ (∀ (a : Actor) (fa : FilmActor) (i : Inventory) (r : Rental),
      (a, fa, i, r) ∈ joined2 s ↔
        a ∈ s.actor ∧ fa ∈ s.film_actor ∧ i ∈ s.inventory ∧
          r ∈ s.rental ∧ a.actor_id = fa.actor_id ∧
          fa.film_id = i.film_id ∧ i.inventory_id = r.inventory_id)
    ∧ (∀ (p : Payment) (r : Rental) (i : Inventory) (fc : FilmCategory)
        (c : Category),
      (p, r, i, fc, c) ∈ joined3 s ↔
        p ∈ s.payment ∧ r ∈ s.rental ∧ i ∈ s.inventory ∧
          fc ∈ s.film_category ∧ c ∈ s.category ∧
          p.rental_id = r.rental_id ∧ r.inventory_id = i.inventory_id ∧
          i.film_id = fc.film_id ∧ fc.category_id = c.category_id)
    ∧ (∀ (a : Actor) (fa : FilmActor) (fc : FilmCategory) (c : Category),
      (a, fa, fc, c) ∈ joined5 s ↔
        a ∈ s.actor ∧ fa ∈ s.film_actor ∧ fc ∈ s.film_category ∧
          c ∈ s.category ∧ a.actor_id = fa.actor_id ∧
          fa.film_id = fc.film_id ∧ fc.category_id = c.category_id)
    ∧ (∀ (ci : City) (ad : Address) (cu : Customer),
      (ci, ad, cu) ∈ joined6 s ↔
        ci ∈ s.city ∧ ad ∈ s.address ∧ cu ∈ s.customer ∧
          ci.city_id = ad.city_id ∧ ad.address_id = cu.address_id)
    ∧ (∀ (cat : Category) (fc : FilmCategory) (film : Film)
        (inv : Inventory) (ren : Rental) (cu : Customer) (addr : Address)
        (city : City),
      J7.mk cat fc film inv ren cu addr city ∈ joined7 s ↔
        cat ∈ s.category ∧ fc ∈ s.film_category ∧ film ∈ s.film ∧
          inv ∈ s.inventory ∧ ren ∈ s.rental ∧ cu ∈ s.customer ∧
          addr ∈ s.address ∧ city ∈ s.city ∧
          addr.city_id = city.city_id ∧ cu.address_id = addr.address_id ∧
          ren.customer_id = cu.customer_id ∧
          inv.inventory_id = ren.inventory_id ∧
          film.film_id = inv.film_id ∧ fc.film_id = film.film_id ∧
          cat.category_id = fc.category_id) := by
  refine ⟨?_, ?_, ?_, ?_, ?_, ?_⟩
  · intro c fc
    simp only [joined1, List.mem_flatMap, List.mem_map, List.mem_filter,
      decide_eq_true_eq, Prod.mk.injEq]
    constructor
    · rintro ⟨c', hc', fc', ⟨hfc', hid⟩, rfl, rfl⟩
      exact ⟨hc', hfc', hid⟩
    · rintro ⟨hc, hfc, hid⟩
      exact ⟨c, hc, fc, ⟨hfc, hid⟩, rfl, rfl⟩
  · intro a fa i r
    simp only [joined2, List.mem_flatMap, List.mem_map, List.mem_filter,
      decide_eq_true_eq, Prod.mk.injEq]
    constructor
    · rintro ⟨a', ha', fa', hfa', i', hi', r', ⟨hr', h1, h2, h3⟩,
        rfl, rfl, rfl, rfl⟩
      exact ⟨ha', hfa', hi', hr', h1, h2, h3⟩
    · rintro ⟨ha, hfa, hi, hr, h1, h2, h3⟩
      exact ⟨a, ha, fa, hfa, i, hi, r, ⟨hr, h1, h2, h3⟩, rfl, rfl, rfl, rfl⟩
  · intro p r i fc c
    simp only [joined3, List.mem_flatMap, List.mem_map, List.mem_filter,
      decide_eq_true_eq, Prod.mk.injEq]
    constructor
    · rintro ⟨p', hp', r', hr', i', hi', fc', hfc', c',
        ⟨hc', h1, h2, h3, h4⟩, rfl, rfl, rfl, rfl, rfl⟩
      exact ⟨hp', hr', hi', hfc', hc', h1, h2, h3, h4⟩
    · rintro ⟨hp, hr, hi, hfc, hc, h1, h2, h3, h4⟩
      exact ⟨p, hp, r, hr, i, hi, fc, hfc, c, ⟨hc, h1, h2, h3, h4⟩,
        rfl, rfl, rfl, rfl, rfl⟩
  · intro a fa fc c
    simp only [joined5, List.mem_flatMap, List.mem_map, List.mem_filter,
      decide_eq_true_eq, Prod.mk.injEq]
    constructor
    · rintro ⟨a', ha', fa', hfa', fc', hfc', c', ⟨hc', h1, h2, h3⟩,
        rfl, rfl, rfl, rfl⟩
      exact ⟨ha', hfa', hfc', hc', h1, h2, h3⟩
    · rintro ⟨ha, hfa, hfc, hc, h1, h2, h3⟩
      exact ⟨a, ha, fa, hfa, fc, hfc, c, ⟨hc, h1, h2, h3⟩,
        rfl, rfl, rfl, rfl⟩
  · intro ci ad cu
    simp only [joined6, List.mem_flatMap, List.mem_map, List.mem_filter,
      decide_eq_true_eq, Prod.mk.injEq]
    constructor
    · rintro ⟨ci', hci', ad', had', cu', ⟨hcu', h1, h2⟩, rfl, rfl, rfl⟩
      exact ⟨hci', had', hcu', h1, h2⟩
    · rintro ⟨hci, had, hcu, h1, h2⟩
      exact ⟨ci, hci, ad, had, cu, ⟨hcu, h1, h2⟩, rfl, rfl, rfl⟩
  · intro cat fc film inv ren cu addr city
    simp only [joined7, List.mem_flatMap, List.mem_map, List.mem_filter,
      decide_eq_true_eq, J7.mk.injEq]
    constructor
    · rintro ⟨cat', hcat', fc', hfc', film', hfilm', inv', hinv', ren',
        hren', cu', hcu', addr', haddr', city',
        ⟨hcity', h1, h2, h3, h4, h5, h6, h7⟩,
        rfl, rfl, rfl, rfl, rfl, rfl, rfl, rfl⟩
      exact ⟨hcat', hfc', hfilm', hinv', hren', hcu', haddr', hcity',
        h1, h2, h3, h4, h5, h6, h7⟩
    · rintro ⟨hcat, hfc, hfilm, hinv, hren, hcu, haddr, hcity,
        h1, h2, h3, h4, h5, h6, h7⟩
      exact ⟨cat, hcat, fc, hfc, film, hfilm, inv, hinv, ren, hren,
        cu, hcu, addr, haddr, city,
        ⟨hcity, h1, h2, h3, h4, h5, h6, h7⟩,
        rfl, rfl, rfl, rfl, rfl, rfl, rfl, rfl⟩

set_option maxHeartbeats 1600000 in
/-- C3: report 5 limits by dense rank, not row count: an aggregated actor
row's projection appears in the output iff its film_count has dense rank
at most 3; with four actors of film counts [5, 5, 5, 3] all four rows
appear; and the rank of a ranked row is a function of film_count alone,
so the secondary ordering key first_name never affects it. -/
theorem report5_rank_limit :
    (∀ (s : Store) (r : ActorFilmCount), r ∈ actorFilmCounts s →
      (Report5Row.mk r.first_name r.last_name r.film_count ∈ report5 s ↔
        denseRankDesc ((actorFilmCounts s).map fun x => x.film_count)
          r.film_count ≤ 3))
    ∧ (report5 tieStore5).length = 4
    ∧ (∀ (s : Store) (x y : RankedActor), x ∈ rankedActors s →
        y ∈ rankedActors s → x.film_count = y.film_count →
        x.rnk = y.rnk) := by
  refine ⟨?_, by decide, ?_⟩
  · intro s r hr
    constructor
    · intro hmem
      simp only [report5, mem_sortByLe, List.mem_map, List.mem_filter,
        decide_eq_true_eq] at hmem
      obtain ⟨ra, ⟨hra, hrnk⟩, heq⟩ := hmem
      simp only [rankedActors, List.mem_map] at hra
      obtain ⟨q, hq, rfl⟩ := hra
      have hcount : q.film_count = r.film_count :=
        congrArg Report5Row.film_count heq
      have h3 : denseRankDesc
          ((actorFilmCounts s).map fun x => x.film_count)
          q.film_count ≤ 3 := hrnk
      rwa [hcount] at h3
    · intro hrnk
      simp only [report5, mem_sortByLe, List.mem_map, List.mem_filter,
        decide_eq_true_eq]
      refine ⟨⟨r.first_name, r.last_name, r.film_count,
        denseRankDesc ((actorFilmCounts s).map fun x => x.film_count)
          r.film_count⟩, ⟨?_, hrnk⟩, rfl⟩
      simp only [rankedActors, List.mem_map]
      exact ⟨r, hr, rfl⟩
  · intro s x y hx hy hcount
    simp only [rankedActors, List.mem_map] at hx hy
    obtain ⟨q, hq, rfl⟩ := hx
    obtain ⟨p, hp, rfl⟩ := hy
    have hqp : q.film_count = p.film_count := hcount
    simp [hqp]

/-- Witness for C3: in the [5, 5, 5, 3] tie store, the actor row with
film count 5 appears in report 5 iff its dense rank is at most 3. -/
theorem report5_rank_limit_witness :
    (Report5Row.mk "a" "x" 5 ∈ report5 tieStore5 ↔
      denseRankDesc ((actorFilmCounts tieStore5).map fun x => x.film_count)
        5 ≤ 3) :=
  report5_rank_limit.1 tieStore5 (ActorFilmCount.mk 1 "a" "x" 5) (by decide)

/-! ### Empty-relation lemmas -/

theorem joined1Nil (s : Store)
    (h : s.category = [] ∨ s.film_category = []) : joined1 s = [] := by
  rcases h with h | h <;> simp [joined1, h, flatMapNilFun]

theorem joined2Nil (s : Store)
    (h : s.actor = [] ∨ s.film_actor = [] ∨ s.inventory = [] ∨
      s.rental = []) : joined2 s = [] := by
  rcases h with h | h | h | h <;> simp [joined2, h, flatMapNilFun]

theorem joined3Nil (s : Store)
    (h : s.payment = [] ∨ s.rental = [] ∨ s.inventory = [] ∨
      s.film_category = [] ∨ s.category = []) : joined3 s = [] := by
  rcases h with h | h | h | h | h <;> simp [joined3, h, flatMapNilFun]

theorem joined5Nil (s : Store)
    (h : s.actor = [] ∨ s.film_actor = [] ∨ s.film_category = [] ∨
      s.category = []) : joined5 s = [] := by
  rcases h with h | h | h | h <;> simp [joined5, h, flatMapNilFun]

theorem joined6Nil (s : Store)
    (h : s.city = [] ∨ s.address = [] ∨ s.customer = []) :
    joined6 s = [] := by
  rcases h with h | h | h <;> simp [joined6, h, flatMapNilFun]

theorem joined7Nil (s : Store)
    (h : s.category = [] ∨ s.film_category = [] ∨ s.film = [] ∨
      s.inventory = [] ∨ s.rental = [] ∨ s.customer = [] ∨
      s.address = [] ∨ s.city = []) : joined7 s = [] := by
  rcases h with h | h | h | h | h | h | h | h <;>
    simp [joined7, h, flatMapNilFun]

theorem report1NilOfJoined (s : Store) (h : joined1 s = []) :
    report1 s = [] := by
  simp [report1, groupRows, h, sortByLe]

theorem report2NilOfJoined (s : Store) (h : joined2 s = []) :
    report2 s = [] := by
  simp [report2, groupRows, h, sortByLe]

theorem report3NilOfJoined (s : Store) (h : joined3 s = []) :
    report3 s = [] := by
  simp [report3, groupRows, h, sortByLe]

theorem report5NilOfJoined (s : Store) (h : joined5 s = []) :
    report5 s = [] := by
  simp [report5, rankedActors, actorFilmCounts, groupRows, h, sortByLe]

theorem report6NilOfJoined (s : Store) (h : joined6 s = []) :
    report6 s = [] := by
  simp [report6, report6grouped, groupRows, h, sortByLe]

theorem report7NilOfJoined (s : Store) (h : joined7 s = []) :
    report7 s = [] := by
  simp [report7, ranked7, grouped7, groupRows, h, sortByLe]

/-- C9 counterexample: in the store whose only nonempty relation is
film, the relation inventory referenced by report 4 is empty, yet
report 4 produces the title list [T] — neither an empty result set nor a
zero-valued aggregate — so the claim fails as stated. -/
theorem reports_empty_tolerant_cex :
    filmOnlyStore.inventory = [] ∧ report4 filmOnlyStore = ["T"] := by
  decide

/-- C9 (amended): every report tolerates empty relations without failure:
whenever any relation referenced by reports 1, 2, 3, 5, 6 or 7 is empty
that report returns the empty result, and report 4 returns the empty
result when film is empty; when inventory alone is empty, report 4
instead returns every film title, since the anti-join succeeds for every
film. -/
theorem reports_empty_tolerant (s : Store) :
    ((s.category = [] ∨ s.film_category = []) → report1 s = [])
    ∧ ((s.actor = [] ∨ s.film_actor = [] ∨ s.inventory = [] ∨
        s.rental = []) → report2 s = [])
    ∧ ((s.payment = [] ∨ s.rental = [] ∨ s.inventory = [] ∨
        s.film_category = [] ∨ s.category = []) → report3 s = [])
    ∧ (s.film = [] → report4 s = [])
    ∧ (s.inventory = [] → report4 s = s.film.map Film.title)
    ∧ ((s.actor = [] ∨ s.film_actor = [] ∨ s.film_category = [] ∨
        s.category = []) → report5 s = [])
    ∧ ((s.city = [] ∨ s.address = [] ∨ s.customer = []) →
        report6 s = [])
    ∧ ((s.category = [] ∨ s.film_category = [] ∨ s.film = [] ∨
        s.inventory = [] ∨ s.rental = [] ∨ s.customer = [] ∨
        s.address = [] ∨ s.city = []) → report7 s = []) :=
  ⟨fun h => report1NilOfJoined s (joined1Nil s h),
    fun h => report2NilOfJoined s (joined2Nil s h),
    fun h => report3NilOfJoined s (joined3Nil s h),
    fun h => by simp [report4, h],
    fun h => by simp [report4, h],
    fun h => report5NilOfJoined s (joined5Nil s h),
    fun h => report6NilOfJoined s (joined6Nil s h),
    fun h => report7NilOfJoined s (joined7Nil s h)⟩

/-- Witness for C9 (amended): with every relation empty, report 1 yields
the empty result. -/
theorem reports_empty_tolerant_witness : report1 emptyStore = [] :=
  (reports_empty_tolerant emptyStore).1 (Or.inl rfl)
